import Mathlib

/-!
Verification development for the sc0710 capture-card driver core
(sources: sc0710-i2c.c and sc0710-video.c).

The development shallow-embeds the pieces of the driver that the
specification talks about:

- the static format catalog and its two lookup routines
  (sc0710-video.c, formats / sc0710_format_find_by_timing /
  sc0710_format_find_by_timing_and_rate);
- the HDMI status poll state machine (sc0710-i2c.c,
  sc0710_i2c_read_hdmi_status), as a pure function from the previous
  device signal state and the 20-byte status block read over the bus
  to the next state plus the action the poll takes afterwards;
- the bus write-read transaction (sc0710-i2c.c, __sc0710_i2c_writeread)
  over an abstract register oracle, keeping the per-phase retry counts
  and deadline checks of the source;
- the MCU write path (sc0710-i2c.c, sc0710_i2c_write /
  sc0710_i2c_write_mcu), recording the transcript of data bytes pushed
  to the transmit FIFO;
- the DMA resync orchestrator (sc0710-i2c.c, sc0710_reset_dma_frame_sync)
  as a function from device state and channel table to the list of
  hardware-affecting actions it performs;
- the delivery-timer tick (sc0710-video.c, sc0710_vid_timeout) reduced
  to the geometry and payload size it uses for placeholder frames.

Machine integers are modeled as Nat (the driver only ever compares and
masks byte and u32 quantities that stay far below overflow in the code
paths under study; where u32 range matters, theorems carry an explicit
bound hypothesis). Error returns are the usual negative errno values,
modeled as Int.
-/

/-- One entry of the static format table of sc0710-video.c.  Field order
follows the C struct initializer: timingH, timingV, width, height,
interlaced, fpsX100, fpsnum, fpsden, depth, framesize, name.  The
dv_timings payload is irrelevant to every claim and is omitted. -/
structure ScFormat where
  timingH : Nat
  timingV : Nat
  width : Nat
  height : Nat
  interlaced : Nat
  fpsX100 : Nat
  fpsnum : Nat
  fpsden : Nat
  depth : Nat
  framesize : Nat
  name : String
deriving DecidableEq

/-- The formats[] initializer of sc0710-video.c with SUPPORT_INTERLACED = 0
(the three interlaced rows are compiled out), framesize still 0 as in the
source text. -/
def formatsTable : List ScFormat := [
  { timingH :=  800, timingV :=  525, width :=  640, height :=  480, interlaced := 0, fpsX100 :=  6000, fpsnum :=  60000, fpsden := 1000, depth := 8, framesize := 0, name := "640x480p60" },
  { timingH :=  832, timingV :=  520, width :=  640, height :=  480, interlaced := 0, fpsX100 :=  7500, fpsnum :=  75000, fpsden := 1000, depth := 8, framesize := 0, name := "640x480p75" },
  { timingH :=  858, timingV :=  525, width :=  720, height :=  480, interlaced := 0, fpsX100 :=  5994, fpsnum :=  60000, fpsden := 1001, depth := 8, framesize := 0, name := "720x480p59.94" },
  { timingH :=  864, timingV :=  625, width :=  720, height :=  576, interlaced := 0, fpsX100 :=  5000, fpsnum :=  50000, fpsden := 1000, depth := 8, framesize := 0, name := "720x576p50" },
  { timingH := 1056, timingV :=  628, width :=  800, height :=  600, interlaced := 0, fpsX100 :=  6000, fpsnum :=  60000, fpsden := 1000, depth := 8, framesize := 0, name := "800x600p60" },
  { timingH := 1040, timingV :=  666, width :=  800, height :=  600, interlaced := 0, fpsX100 :=  7500, fpsnum :=  75000, fpsden := 1000, depth := 8, framesize := 0, name := "800x600p75" },
  { timingH :=  960, timingV :=  636, width :=  800, height :=  600, interlaced := 0, fpsX100 := 11997, fpsnum := 120000, fpsden := 1001, depth := 8, framesize := 0, name := "800x600p119.97" },
  { timingH := 1056, timingV :=  636, width :=  800, height :=  600, interlaced := 0, fpsX100 := 11988, fpsnum := 120000, fpsden := 1001, depth := 8, framesize := 0, name := "800x600p119.88" },
  { timingH := 1056, timingV :=  636, width :=  800, height :=  600, interlaced := 0, fpsX100 := 12000, fpsnum := 120000, fpsden := 1000, depth := 8, framesize := 0, name := "800x600p120" },
  { timingH := 1344, timingV :=  806, width := 1024, height :=  768, interlaced := 0, fpsX100 :=  6000, fpsnum :=  60000, fpsden := 1000, depth := 8, framesize := 0, name := "1024x768p60" },
  { timingH := 1312, timingV :=  800, width := 1024, height :=  768, interlaced := 0, fpsX100 :=  7500, fpsnum :=  75000, fpsden := 1000, depth := 8, framesize := 0, name := "1024x768p75" },
  { timingH := 1980, timingV :=  750, width := 1280, height :=  720, interlaced := 0, fpsX100 :=  5000, fpsnum :=  50000, fpsden := 1000, depth := 8, framesize := 0, name := "1280x720p50" },
  { timingH := 1650, timingV :=  750, width := 1280, height :=  720, interlaced := 0, fpsX100 :=  5994, fpsnum :=  60000, fpsden := 1001, depth := 8, framesize := 0, name := "1280x720p59.94" },
  { timingH := 1650, timingV :=  750, width := 1280, height :=  720, interlaced := 0, fpsX100 :=  6000, fpsnum :=  60000, fpsden := 1000, depth := 8, framesize := 0, name := "1280x720p60" },
  { timingH := 1688, timingV := 1066, width := 1280, height := 1024, interlaced := 0, fpsX100 :=  6000, fpsnum :=  60000, fpsden := 1000, depth := 8, framesize := 0, name := "1280x1024p60" },
  { timingH := 1688, timingV := 1066, width := 1280, height := 1024, interlaced := 0, fpsX100 :=  7500, fpsnum :=  75000, fpsden := 1000, depth := 8, framesize := 0, name := "1280x1024p75" },
  { timingH := 2750, timingV := 1125, width := 1920, height := 1080, interlaced := 0, fpsX100 :=  2400, fpsnum :=  24000, fpsden := 1000, depth := 8, framesize := 0, name := "1920x1080p24" },
  { timingH := 2640, timingV := 1125, width := 1920, height := 1080, interlaced := 0, fpsX100 :=  2500, fpsnum :=  25000, fpsden := 1000, depth := 8, framesize := 0, name := "1920x1080p25" },
  { timingH := 2200, timingV := 1125, width := 1920, height := 1080, interlaced := 0, fpsX100 :=  3000, fpsnum :=  30000, fpsden := 1000, depth := 8, framesize := 0, name := "1920x1080p30" },
  { timingH := 2640, timingV := 1125, width := 1920, height := 1080, interlaced := 0, fpsX100 :=  5000, fpsnum :=  50000, fpsden := 1000, depth := 8, framesize := 0, name := "1920x1080p50" },
  { timingH := 2200, timingV := 1125, width := 1920, height := 1080, interlaced := 0, fpsX100 :=  6000, fpsnum :=  60000, fpsden := 1000, depth := 8, framesize := 0, name := "1920x1080p60" },
  { timingH := 2200, timingV := 1125, width := 1920, height := 1080, interlaced := 0, fpsX100 := 11988, fpsnum := 120000, fpsden := 1001, depth := 8, framesize := 0, name := "1920x1080p119.88" },
  { timingH := 2200, timingV := 1125, width := 1920, height := 1080, interlaced := 0, fpsX100 := 12000, fpsnum := 120000, fpsden := 1000, depth := 8, framesize := 0, name := "1920x1080p120" },
  { timingH := 2000, timingV := 1144, width := 1920, height := 1080, interlaced := 0, fpsX100 := 12000, fpsnum := 120000, fpsden := 1000, depth := 8, framesize := 0, name := "1920x1080p120cvt" },
  { timingH := 2080, timingV := 1310, width := 1920, height := 1080, interlaced := 0, fpsX100 := 24000, fpsnum := 240000, fpsden := 1000, depth := 8, framesize := 0, name := "1920x1080p240" },
  { timingH := 2080, timingV := 1310, width := 1920, height := 1080, interlaced := 0, fpsX100 := 23976, fpsnum := 240000, fpsden := 1001, depth := 8, framesize := 0, name := "1920x1080p239.76" },
  { timingH := 2592, timingV := 1245, width := 1920, height := 1200, interlaced := 0, fpsX100 :=  6000, fpsnum :=  60000, fpsden := 1000, depth := 8, framesize := 0, name := "1920x1200p60" },
  { timingH := 2080, timingV := 1235, width := 1920, height := 1200, interlaced := 0, fpsX100 :=  6000, fpsnum :=  60000, fpsden := 1000, depth := 8, framesize := 0, name := "1920x1200p60rb" },
  { timingH := 2720, timingV := 1481, width := 2560, height := 1440, interlaced := 0, fpsX100 := 12000, fpsnum := 120000, fpsden := 1000, depth := 8, framesize := 0, name := "2560x1440p120a" },
  { timingH := 2720, timingV := 1524, width := 2560, height := 1440, interlaced := 0, fpsX100 := 12000, fpsnum := 120000, fpsden := 1000, depth := 8, framesize := 0, name := "2560x1440p120b" },
  { timingH := 2720, timingV := 1525, width := 2560, height := 1440, interlaced := 0, fpsX100 := 12000, fpsnum := 120000, fpsden := 1000, depth := 8, framesize := 0, name := "2560x1440p120c" },
  { timingH := 2720, timingV := 1510, width := 2560, height := 1440, interlaced := 0, fpsX100 := 12000, fpsnum := 120000, fpsden := 1000, depth := 8, framesize := 0, name := "2560x1440p120alt" },
  { timingH := 2640, timingV := 1490, width := 2560, height := 1440, interlaced := 0, fpsX100 := 12000, fpsnum := 120000, fpsden := 1000, depth := 8, framesize := 0, name := "2560x1440p120cvt" },
  { timingH := 2720, timingV := 1481, width := 2560, height := 1440, interlaced := 0, fpsX100 :=  6000, fpsnum :=  60000, fpsden := 1000, depth := 8, framesize := 0, name := "2560x1440p60" },
  { timingH := 2720, timingV := 1500, width := 2560, height := 1440, interlaced := 0, fpsX100 :=  6000, fpsnum :=  60000, fpsden := 1000, depth := 8, framesize := 0, name := "2560x1440p60alt" },
  { timingH := 2720, timingV := 1527, width := 2560, height := 1440, interlaced := 0, fpsX100 := 14400, fpsnum := 144000, fpsden := 1000, depth := 8, framesize := 0, name := "2560x1440p144" },
  { timingH := 5500, timingV := 2250, width := 3840, height := 2160, interlaced := 0, fpsX100 :=  2400, fpsnum :=  24000, fpsden := 1000, depth := 8, framesize := 0, name := "3840x2160p24" },
  { timingH := 5280, timingV := 2250, width := 3840, height := 2160, interlaced := 0, fpsX100 :=  2500, fpsnum :=  25000, fpsden := 1000, depth := 8, framesize := 0, name := "3840x2160p25" },
  { timingH := 4400, timingV := 2250, width := 3840, height := 2160, interlaced := 0, fpsX100 :=  3000, fpsnum :=  30000, fpsden := 1000, depth := 8, framesize := 0, name := "3840x2160p30" },
  { timingH := 5280, timingV := 2250, width := 3840, height := 2160, interlaced := 0, fpsX100 :=  5000, fpsnum :=  50000, fpsden := 1000, depth := 8, framesize := 0, name := "3840x2160p50" },
  { timingH := 4400, timingV := 2250, width := 3840, height := 2160, interlaced := 0, fpsX100 :=  5994, fpsnum :=  60000, fpsden := 1001, depth := 8, framesize := 0, name := "3840x2160p59.94" },
  { timingH := 4400, timingV := 2250, width := 3840, height := 2160, interlaced := 0, fpsX100 :=  6000, fpsnum :=  60000, fpsden := 1000, depth := 8, framesize := 0, name := "3840x2160p60" },
  { timingH := 5500, timingV := 2250, width := 3840, height := 2160, interlaced := 0, fpsX100 :=  4800, fpsnum :=  48000, fpsden := 1000, depth := 8, framesize := 0, name := "3840x2160p48" },
  { timingH := 4400, timingV := 2250, width := 4096, height := 2160, interlaced := 0, fpsX100 :=  2400, fpsnum :=  24000, fpsden := 1000, depth := 8, framesize := 0, name := "4096x2160p24" },
  { timingH := 4400, timingV := 2250, width := 4096, height := 2160, interlaced := 0, fpsX100 :=  2500, fpsnum :=  25000, fpsden := 1000, depth := 8, framesize := 0, name := "4096x2160p25" },
  { timingH := 4400, timingV := 2250, width := 4096, height := 2160, interlaced := 0, fpsX100 :=  3000, fpsnum :=  30000, fpsden := 1000, depth := 8, framesize := 0, name := "4096x2160p30" },
  { timingH := 4400, timingV := 2250, width := 4096, height := 2160, interlaced := 0, fpsX100 :=  5000, fpsnum :=  50000, fpsden := 1000, depth := 8, framesize := 0, name := "4096x2160p50" },
  { timingH := 4400, timingV := 2250, width := 4096, height := 2160, interlaced := 0, fpsX100 :=  6000, fpsnum :=  60000, fpsden := 1000, depth := 8, framesize := 0, name := "4096x2160p60" }
]

/-- The per-entry body of sc0710_format_initialize: framesize is computed
as width * 2 * height (YUV 8-bit, 2 bytes per pixel). -/
def formatWithFramesize (f : ScFormat) : ScFormat :=
  { f with framesize := f.width * 2 * f.height }

/-- The format table after module startup ran sc0710_format_initialize
over every entry. -/
def formats : List ScFormat := formatsTable.map formatWithFramesize

/-- sc0710_format_find_by_timing: first entry whose timing tuple equals
the query, in table order. -/
def sc0710_format_find_by_timing (timingH timingV : Nat) : Option ScFormat :=
  formats.find? (fun f => f.timingH == timingH && f.timingV == timingV)

/-- Absolute difference between a target rate and a rounded entry rate,
as computed by the two branches in sc0710_format_find_by_timing_and_rate. -/
def rateDiff (target fps : Nat) : Nat :=
  if fps > target then fps - target else target - fps

/-- Loop of sc0710_format_find_by_timing_and_rate over the remaining
table suffix, carrying best_fmt and best_diff.  The source updates
best_fmt before testing diff == 0 and then returns the same entry from
the exact-match branch; returning it directly is output-equivalent. -/
def findRateGo (timingH timingV target : Nat) :
    List ScFormat → Option ScFormat → Nat → Option ScFormat
  | [], best, _ => best
  | f :: rest, best, bestDiff =>
    if f.timingH == timingH && f.timingV == timingV then
      if target == 0 then some f
      else
        let fps := f.fpsX100 / 100
        let diff := rateDiff target fps
        if diff == 0 then some f
        else if diff < bestDiff then findRateGo timingH timingV target rest (some f) diff
        else findRateGo timingH timingV target rest best bestDiff
    else findRateGo timingH timingV target rest best bestDiff

/-- sc0710_format_find_by_timing_and_rate: among entries matching the
timing tuple, pick the one whose rounded rate (fpsX100 / 100) is nearest
to target_fps; target 0 short-circuits to the first timing match, an
exact rate match short-circuits immediately.  best_diff starts at
0xFFFFFFFF as in the source. -/
def sc0710_format_find_by_timing_and_rate (timingH timingV target : Nat) : Option ScFormat :=
  findRateGo timingH timingV target formats none 4294967295

/-- The 1920x1080p30 catalog entry (first table row with timing tuple
(2200, 1125)). -/
def fmt1920x1080p30 : ScFormat :=
  formatWithFramesize
    { timingH := 2200, timingV := 1125, width := 1920, height := 1080, interlaced := 0,
      fpsX100 := 3000, fpsnum := 30000, fpsden := 1000, depth := 8, framesize := 0,
      name := "1920x1080p30" }

/-- The 1920x1080p60 catalog entry. -/
def fmt1920x1080p60 : ScFormat :=
  formatWithFramesize
    { timingH := 2200, timingV := 1125, width := 1920, height := 1080, interlaced := 0,
      fpsX100 := 6000, fpsnum := 60000, fpsden := 1000, depth := 8, framesize := 0,
      name := "1920x1080p60" }

/-- The first catalog entry, 640x480p60. -/
def fmt640x480p60 : ScFormat :=
  formatWithFramesize
    { timingH := 800, timingV := 525, width := 640, height := 480, interlaced := 0,
      fpsX100 := 6000, fpsnum := 60000, fpsden := 1000, depth := 8, framesize := 0,
      name := "640x480p60" }

/-- The 3840x2160p30 catalog entry (first table row with timing tuple
(4400, 2250)). -/
def fmt3840x2160p30 : ScFormat :=
  formatWithFramesize
    { timingH := 4400, timingV := 2250, width := 3840, height := 2160, interlaced := 0,
      fpsX100 := 3000, fpsnum := 30000, fpsden := 1000, depth := 8, framesize := 0,
      name := "3840x2160p30" }

/-- The 4096x2160p30 catalog entry.  It shares timing tuple (4400, 2250)
and rounded rate 30 with the earlier 3840x2160p30 row. -/
def fmt4096x2160p30 : ScFormat :=
  formatWithFramesize
    { timingH := 4400, timingV := 2250, width := 4096, height := 2160, interlaced := 0,
      fpsX100 := 3000, fpsnum := 30000, fpsden := 1000, depth := 8, framesize := 0,
      name := "4096x2160p30" }

/-- The 3840x2160p60 catalog entry (used as a larger last-known-good
format in placeholder-sizing scenarios). -/
def fmt3840x2160p60 : ScFormat :=
  formatWithFramesize
    { timingH := 4400, timingV := 2250, width := 3840, height := 2160, interlaced := 0,
      fpsX100 := 6000, fpsnum := 60000, fpsden := 1000, depth := 8, framesize := 0,
      name := "3840x2160p60" }

/-- Colorimetry enum of the driver (sc0710.h names). -/
inductive Colorimetry where
  | BT_UNDEFINED
  | BT_601
  | BT_709
  | BT_2020
deriving DecidableEq

/-- Colorspace enum of the driver. -/
inductive Colorspace where
  | CS_UNDEFINED
  | CS_YUV_YCRCB_422_420
  | CS_YUV_YCRCB_444
  | CS_RGB_444
deriving DecidableEq

/-- EOTF enum; sc0710_i2c_read_hdmi_status only ever stores EOTF_SDR, the
other values exist in the header for HDR info-frame parsing. -/
inductive Eotf where
  | EOTF_SDR
  | EOTF_PQ
  | EOTF_HLG
  | EOTF_UNKNOWN
deriving DecidableEq

/-- The device signal state mutated by sc0710_i2c_read_hdmi_status under
the signal mutex: the sc0710_dev fields the poll reads and writes. -/
structure SigState where
  locked : Bool
  cable_connected : Bool
  unlocked_no_timing_count : Nat
  width : Nat
  height : Nat
  pixelLineH : Nat
  pixelLineV : Nat
  interlaced : Nat
  colorimetry : Colorimetry
  colorspace : Colorspace
  eotf : Eotf
  last_hint_interval : Nat
  last_hint_flags : Nat
  fmt : Option ScFormat
  last_fmt : Option ScFormat
deriving DecidableEq

/-- default_no_signal_format of sc0710-video.c: the distinguished
1920x1080p60 descriptor whose framesize is written literally as
1920 * 2 * 1080 in the initializer (sc0710_format_initialize does not
touch it; it only walks the formats array). -/
def default_no_signal_format : ScFormat :=
  { timingH := 2200, timingV := 1125, width := 1920, height := 1080, interlaced := 0,
    fpsX100 := 6000, fpsnum := 60000, fpsden := 1000, depth := 8,
    framesize := 1920 * 2 * 1080, name := "No Signal (1920x1080)" }

/-- sc0710_get_default_format. -/
def sc0710_get_default_format : ScFormat := default_no_signal_format

/-- The frame-rate hint decision table inside sc0710_i2c_read_hdmi_status:
byte 0x0c is an approximate frame interval, byte 0x0d a flags byte.
Interval 0x78 with flags 0x10 means 120 Hz, interval 0x78 with any other
flags means 30 Hz, interval 0x3c means 60 Hz, anything else leaves the
target at 0 (no hint). -/
def hdmiFpsTarget (hint_interval hint_flags : Nat) : Nat :=
  if hint_interval == 0x78 then
    if hint_flags == 0x10 then 120 else 30
  else if hint_interval == 0x3C then 60
  else 0

/-- The timing-change test of sc0710_i2c_read_hdmi_status: only when the
device was already locked with nonzero stored totals, and the new totals
or either rate-hint byte differ from the stored ones. -/
def hdmiTimingChanged (dev : SigState) (rbuf : Nat → Nat) : Prop :=
  dev.locked = true ∧ 0 < dev.pixelLineH ∧ 0 < dev.pixelLineV ∧
    (rbuf 7 <<< 8 ||| rbuf 6 ≠ dev.pixelLineH ∨ rbuf 5 <<< 8 ||| rbuf 4 ≠ dev.pixelLineV ∨
     rbuf 12 ≠ dev.last_hint_interval ∨ rbuf 13 ≠ dev.last_hint_flags)

instance (dev : SigState) (rbuf : Nat → Nat) : Decidable (hdmiTimingChanged dev rbuf) := by
  unfold hdmiTimingChanged
  exact inferInstance

/-- What a successful poll does after updating the state: either it just
returns, or (on an unlocked-to-locked transition or a timing change) it
drops the signal lock, sleeps 300 ms and runs sc0710_reset_dma_frame_sync. -/
inductive PollOutcome where
  | normal
  | resyncDma
deriving DecidableEq

/-- sc0710_i2c_read_hdmi_status, assuming the bus read of the 20-byte
status block at sub-address 0 succeeded and produced the bytes rbuf
(a failed bus read leaves the state untouched and returns -1).  Returns
the new signal state together with the action taken afterwards. -/
def sc0710_i2c_read_hdmi_status (dev : SigState) (rbuf : Nat → Nat) : SigState × PollOutcome :=
  let was_locked := dev.locked
  if rbuf 8 ≠ 0 then
    let timing_changed := hdmiTimingChanged dev rbuf
    let colorimetry :=
      match (rbuf 13 &&& 0x30) >>> 4 with
      | 1 => Colorimetry.BT_709
      | 2 => Colorimetry.BT_601
      | 3 => Colorimetry.BT_2020
      | _ => Colorimetry.BT_UNDEFINED
    let colorspace :=
      match rbuf 15 with
      | 0 => Colorspace.CS_YUV_YCRCB_422_420
      | 1 => Colorspace.CS_YUV_YCRCB_444
      | 2 => Colorspace.CS_RGB_444
      | _ => Colorspace.CS_UNDEFINED
    let new_pixelLineV := rbuf 5 <<< 8 ||| rbuf 4
    let new_pixelLineH := rbuf 7 <<< 8 ||| rbuf 6
    let width := rbuf 11 <<< 8 ||| rbuf 10
    let height0 := rbuf 9 <<< 8 ||| rbuf 8
    let interlaced := rbuf 13 &&& 1
    let height := if interlaced ≠ 0 then height0 * 2 else height0
    let fmt :=
      if timing_changed ∨ was_locked = false then
        sc0710_format_find_by_timing_and_rate new_pixelLineH new_pixelLineV
          (hdmiFpsTarget (rbuf 12) (rbuf 13))
      else dev.fmt
    let last_fmt := if fmt.isSome then fmt else dev.last_fmt
    let dev1 : SigState :=
      { locked := true, cable_connected := true, unlocked_no_timing_count := 0,
        width := width, height := height,
        pixelLineH := new_pixelLineH, pixelLineV := new_pixelLineV,
        interlaced := interlaced, colorimetry := colorimetry, colorspace := colorspace,
        eotf := Eotf.EOTF_SDR, last_hint_interval := rbuf 12, last_hint_flags := rbuf 13,
        fmt := fmt, last_fmt := last_fmt }
    -- the source tests (!was_locked && dev->locked) || timing_changed, with
    -- dev->locked just assigned 1
    if was_locked = false ∨ timing_changed then (dev1, PollOutcome.resyncDma)
    else (dev1, PollOutcome.normal)
  else
    let timing_present := rbuf 4 ||| rbuf 5 ||| rbuf 6 ||| rbuf 7
    if timing_present ≠ 0 then
      ({ dev with
          cable_connected := true, unlocked_no_timing_count := 0,
          fmt := none, locked := false, width := 0, height := 0,
          pixelLineH := 0, pixelLineV := 0, interlaced := 0,
          colorimetry := Colorimetry.BT_UNDEFINED, colorspace := Colorspace.CS_UNDEFINED,
          eotf := Eotf.EOTF_SDR }, PollOutcome.normal)
    else
      let cnt := dev.unlocked_no_timing_count + 1
      if 3 ≤ cnt then
        ({ dev with
            unlocked_no_timing_count := cnt, cable_connected := false,
            fmt := none, locked := false, width := 0, height := 0,
            pixelLineH := 0, pixelLineV := 0, interlaced := 0,
            colorimetry := Colorimetry.BT_UNDEFINED, colorspace := Colorspace.CS_UNDEFINED,
            eotf := Eotf.EOTF_SDR }, PollOutcome.normal)
      else
        ({ dev with unlocked_no_timing_count := cnt, cable_connected := true },
         PollOutcome.normal)

/-- Which placeholder image the timer tick paints (sc0710-video.c,
FILL_MODE_NOSIGNAL when a cable is present, FILL_MODE_NODEVICE when not). -/
inductive FillMode where
  | NOSIGNAL
  | NODEVICE
deriving DecidableEq

/-- What one delivery-timer tick does to each streaming client that has a
buffer queued: the geometry passed to fill_frame, the payload size passed
to vb2_set_plane_payload, and the image chosen. -/
structure PlaceholderDelivery where
  fillWidth : Nat
  fillHeight : Nat
  payload : Nat
  fillmode : FillMode
deriving DecidableEq

/-- sc0710_vid_timeout reduced to its buffer-visible effect: with a real
signal (resolved format and lock) it only reschedules and delivers
nothing; otherwise every streaming client with a queued buffer gets one
placeholder frame, always generated and sized from
sc0710_get_default_format, never from dev->last_fmt. -/
def sc0710_vid_timeout (dev : SigState) : Option PlaceholderDelivery :=
  let fmt := sc0710_get_default_format
  if dev.fmt.isSome && dev.locked then none
  else
    some { fillWidth := fmt.width, fillHeight := fmt.height, payload := fmt.framesize,
           fillmode := if dev.cable_connected then FillMode.NOSIGNAL else FillMode.NODEVICE }

/-- Channel media type (CHTYPE_VIDEO vs audio). -/
inductive ChType where
  | video
  | audio
deriving DecidableEq

/-- DMA channel run state. -/
inductive ChState where
  | stopped
  | running
deriving DecidableEq

/-- The per-channel fields sc0710_reset_dma_frame_sync inspects. -/
structure DmaChannel where
  enabled : Bool
  mediatype : ChType
  state : ChState
  streaming_refcount : Int
deriving DecidableEq

/-- Hardware-affecting steps of sc0710_reset_dma_frame_sync, in program
order: stopChannel bundles the per-channel stop sequence (stop command,
timer cancel, write-back metadata clear, descriptor counter and
scatter-gather register reset), then the resize call, the height and
control-register reprogramming, and the DMA restart. -/
inductive ResyncAction where
  | stopChannel (idx : Nat)
  | resizeChannels
  | programHeight (height : Nat)
  | programControl
  | startChannels
deriving DecidableEq

/-- sc0710_reset_dma_frame_sync as the list of hardware-affecting actions
it performs, given the device signal state and the channel table.  An
empty list is the no-op early return. -/
def sc0710_reset_dma_frame_sync (dev : SigState) (channels : List DmaChannel) :
    List ResyncAction :=
  match dev.fmt with
  | none => []
  | some fmt =>
    let has_streaming_clients := channels.any fun ch =>
      ch.enabled && ch.mediatype == ChType.video && decide (0 < ch.streaming_refcount)
    if !has_streaming_clients then []
    else
      let dma_was_running := channels.any fun ch =>
        ch.enabled && ch.mediatype == ChType.video && ch.state == ChState.running
      let stops :=
        if dma_was_running then
          channels.enum.filterMap fun p =>
            if p.2.enabled && p.2.state == ChState.running && p.2.mediatype == ChType.video
            then some (ResyncAction.stopChannel p.1) else none
        else []
      stops ++ [ResyncAction.resizeChannels, ResyncAction.programHeight fmt.height,
                ResyncAction.programControl, ResyncAction.startChannels]

/-- Errno value for -EIO (the name EIO itself exists in core Lean). -/
def eioErrno : Int := 5

/-- Errno: invalid argument. -/
def EINVAL : Int := 22

/-- Errno: connection timed out. -/
def ETIMEDOUT : Int := 110

/-- Abstract register/time oracle for one __sc0710_i2c_writeread call.
Each polling loop of the source reads BAR0_3104 repeatedly and checks an
elapsed-time deadline; the oracle gives the value of the i-th read in
each loop and whether the deadline test fires at that iteration. -/
structure I2CBus where
  ackPoll1 : Nat → Nat
  expired1 : Nat → Bool
  ackPoll2 : Nat → Nat
  expired2 : Nat → Bool
  readExpired : Nat → Bool
  busPoll : Nat → Nat → Nat
  busExpired : Nat → Nat → Bool
  dataReg : Nat → Nat
  finalStatus : Nat

/-- busread of sc0710-i2c.c for response byte j: up to 32 polls of
BAR0_3104 for 0x8c or 0xac with a 100 ms per-byte deadline returning the
sentinel 0xFF; on break or exhaustion the byte is fetched from BAR0_310C. -/
def busreadGo (bus : I2CBus) (j : Nat) : Nat → Nat → Nat
  | 0, _ => bus.dataReg j
  | cnt + 1, i =>
    if bus.busExpired j i then 0xFF
    else if bus.busPoll j i = 0x8c ∨ bus.busPoll j i = 0xac then bus.dataReg j
    else busreadGo bus j cnt (i + 1)

/-- busread entry point (cnt starts at 32). -/
def busread (bus : I2CBus) (j : Nat) : Nat := busreadGo bus j 32 0

/-- Result of one bounded acknowledge-polling loop in
__sc0710_i2c_writeread: the wanted status appeared, the global deadline
fired first, or the 16 retries ran out. -/
inductive AckResult where
  | acked
  | expiredEarly
  | exhausted
deriving DecidableEq

/-- One acknowledge-polling loop: while cnt is positive, first test the
global deadline, then read BAR0_3104 and compare against the wanted
status. -/
def ackWaitGo (poll : Nat → Nat) (expired : Nat → Bool) (want : Nat) :
    Nat → Nat → AckResult
  | 0, _ => AckResult.exhausted
  | cnt + 1, i =>
    if expired i then AckResult.expiredEarly
    else if poll i = want then AckResult.acked
    else ackWaitGo poll expired want cnt (i + 1)

/-- Return value and response bytes of one write-read transaction. -/
structure WriteReadResult where
  ret : Int
  bytes : List Nat
deriving DecidableEq

/-- The read phase of __sc0710_i2c_writeread: before each of the rlen
bytes the 500 ms global deadline is tested (returning -ETIMEDOUT), then
the byte comes from busread; after the last byte the completion status
must be 0xc8 or 0xcc, otherwise the return value is -1. -/
def readPhaseGo (bus : I2CBus) : Nat → Nat → List Nat → WriteReadResult
  | 0, _, acc =>
    if bus.finalStatus = 0xc8 ∨ bus.finalStatus = 0xcc then { ret := 0, bytes := acc }
    else { ret := -1, bytes := acc }
  | remaining + 1, j, acc =>
    if bus.readExpired j then { ret := -ETIMEDOUT, bytes := acc }
    else readPhaseGo bus remaining (j + 1) (acc ++ [busread bus j])

/-- __sc0710_i2c_writeread over the oracle, for a response of rlen bytes.
Phase 1 polls for the address acknowledge 0x44 with 16 retries; both the
deadline path and the retry-exhaustion path return 0 with nothing read.
Phase 2 polls for the sub-address acknowledge 0xc4; its deadline path
also returns 0, but retry exhaustion is tolerated and the transaction
proceeds to the read phase (the asymmetry noted in the spec). -/
def sc0710_i2c_writeread (bus : I2CBus) (rlen : Nat) : WriteReadResult :=
  match ackWaitGo bus.ackPoll1 bus.expired1 0x44 16 0 with
  | AckResult.acked =>
    match ackWaitGo bus.ackPoll2 bus.expired2 0xc4 16 0 with
    | AckResult.expiredEarly => { ret := 0, bytes := [] }
    | _ => readPhaseGo bus rlen 0 []
  | _ => { ret := 0, bytes := [] }

/-- Acknowledge oracle for the MCU write path: value of the i-th
BAR0_3104 poll inside the k-th didack call of one sc0710_i2c_write. -/
structure McuBus where
  ackPolls : Nat → Nat → Nat

/-- didack of sc0710-i2c.c: up to 16 polls for 0x44 or 0xc0. -/
def didackGo (poll : Nat → Nat) : Nat → Nat → Bool
  | 0, _ => false
  | cnt + 1, i =>
    if poll i = 0x44 ∨ poll i = 0xc0 then true
    else didackGo poll cnt (i + 1)

/-- The k-th didack call on the oracle. -/
def didack (bus : McuBus) (k : Nat) : Bool := didackGo (bus.ackPolls k) 16 0

/-- One data byte pushed to the transmit FIFO register BAR0_3108 after
the address frame, with its stop-bit flag. -/
structure TxByte where
  byte : Nat
  stop : Bool
deriving DecidableEq

/-- The transmit loop of sc0710_i2c_write: it iterates i = 1 .. wlen-1,
so the list passed here is wbuf with its first element dropped; the stop
bit goes on the final byte; each write is followed by a didack check and
-EIO aborts the transaction (the byte was already pushed). -/
def writeGo (bus : McuBus) : List Nat → Nat → List TxByte → Int × List TxByte
  | [], _, acc => (0, acc)
  | b :: bs, k, acc =>
    let t : TxByte := { byte := b, stop := bs.isEmpty }
    if didack bus k then writeGo bus bs (k + 1) (acc ++ [t])
    else (-eioErrno, acc ++ [t])

/-- sc0710_i2c_write: reset and enable the bus master, push the start-bit
address byte, require its acknowledge, then transmit wbuf starting at
index 1 (index 0 is never pushed to the FIFO). -/
def sc0710_i2c_write (bus : McuBus) (wbuf : List Nat) : Int × List TxByte :=
  if didack bus 0 then writeGo bus (wbuf.drop 1) 1 []
  else (-eioErrno, [])

/-- Outcome of sc0710_i2c_write_mcu: return value, whether the signal
mutex was taken, and the data bytes that went out on the wire after the
address frame. -/
structure McuWriteResult where
  ret : Int
  lockTaken : Bool
  sent : List TxByte
deriving DecidableEq

/-- sc0710_i2c_write_mcu: payloads longer than 15 bytes are rejected with
-EINVAL before the signal mutex is taken and before any bus activity;
otherwise wbuf is built as subaddr followed by the payload and handed to
sc0710_i2c_write with length len + 1 under the signal mutex. -/
def sc0710_i2c_write_mcu (bus : McuBus) (subaddr : Nat) (data : List Nat) : McuWriteResult :=
  if data.length > 15 then { ret := -EINVAL, lockTaken := false, sent := [] }
  else
    let wbuf := subaddr :: data
    let r := sc0710_i2c_write bus wbuf
    { ret := r.1, lockTaken := true, sent := r.2 }

/-- A quiescent signal state: unlocked, cable assumed present, counter 0,
no resolved and no last-known-good format. -/
def initSigState : SigState :=
  { locked := false, cable_connected := true, unlocked_no_timing_count := 0,
    width := 0, height := 0, pixelLineH := 0, pixelLineV := 0, interlaced := 0,
    colorimetry := Colorimetry.BT_UNDEFINED, colorspace := Colorspace.CS_UNDEFINED,
    eotf := Eotf.EOTF_SDR, last_hint_interval := 0, last_hint_flags := 0,
    fmt := none, last_fmt := none }

/-- Status block of a poll with no lock and all-zero timing hints. -/
def rbufZero : Nat → Nat := fun _ => 0

/-- Status block of a locked 1080p60 source: totals 2200 x 1125 in bytes
4-7, nonzero lock byte 8 (height low byte 0x38), height 1080 and width
1920 in bytes 8-11, rate hint 0x3c in byte 12. -/
def rbufLock1080p60 : Nat → Nat := fun i =>
  if i == 4 then 0x65 else if i == 5 then 0x04 else
  if i == 6 then 0x98 else if i == 7 then 0x08 else
  if i == 8 then 0x38 else if i == 9 then 0x04 else
  if i == 10 then 0x80 else if i == 11 then 0x07 else
  if i == 12 then 0x3C else 0

/-- A device that lost its signal while the last resolved format was the
4K entry: placeholder delivery must still use the default geometry. -/
def devSignalLoss4K : SigState :=
  { initSigState with last_fmt := some fmt3840x2160p60 }

/-- A locked device at 1080p60 whose poll history resolved that format. -/
def devLocked1080p60 : SigState :=
  { initSigState with
    locked := true, cable_connected := true,
    width := 1920, height := 1080, pixelLineH := 2200, pixelLineV := 1125,
    last_hint_interval := 0x3C, last_hint_flags := 0,
    fmt := some fmt1920x1080p60, last_fmt := some fmt1920x1080p60 }

/-- A peripheral that never acknowledges anything and a clock that never
reaches a deadline. -/
def busNeverAck : I2CBus :=
  { ackPoll1 := fun _ => 0, expired1 := fun _ => false,
    ackPoll2 := fun _ => 0, expired2 := fun _ => false,
    readExpired := fun _ => false,
    busPoll := fun _ _ => 0, busExpired := fun _ _ => false,
    dataReg := fun _ => 0, finalStatus := 0 }

/-- A well-behaved peripheral: immediate acknowledges, bytes ready at
once, completion status 0xc8. -/
def busGood : I2CBus :=
  { ackPoll1 := fun _ => 0x44, expired1 := fun _ => false,
    ackPoll2 := fun _ => 0xc4, expired2 := fun _ => false,
    readExpired := fun _ => false,
    busPoll := fun _ _ => 0x8c, busExpired := fun _ _ => false,
    dataReg := fun j => j, finalStatus := 0xc8 }

/-- The well-behaved peripheral, but the 500 ms global deadline has
already elapsed when the read phase starts. -/
def busReadStall : I2CBus :=
  { busGood with readExpired := fun _ => true }

/-- An MCU bus whose didack polls always acknowledge at once. -/
def mcuBusAllAck : McuBus := { ackPolls := fun _ _ => 0x44 }

/-- The timing-tuple filter both lookup routines apply to a table entry. -/
def matchesTiming (timingH timingV : Nat) (f : ScFormat) : Bool :=
  f.timingH == timingH && f.timingV == timingV

/-- The delivery produced by a placeholder tick while a cable is present:
default geometry, default payload, no-signal image. -/
def placeholderDeliveryExample : PlaceholderDelivery :=
  { fillWidth := 1920, fillHeight := 1080, payload := 1920 * 2 * 1080,
    fillmode := FillMode.NOSIGNAL }

theorem findRateGo_target_zero (tH tV : Nat) (l : List ScFormat) :
    ∀ d : Nat, findRateGo tH tV 0 l none d = l.find? (matchesTiming tH tV) := by
  induction l with
  | nil => intro d; rfl
  | cons f rest ih =>
    intro d
    by_cases h : (f.timingH == tH && f.timingV == tV) = true
    · simp [findRateGo, matchesTiming, h]
    · simp [findRateGo, matchesTiming, h, ih]

theorem findRateGo_matches (tH tV target : Nat) :
    ∀ (l : List ScFormat) (best : Option ScFormat) (d : Nat),
      (∀ b, best = some b → matchesTiming tH tV b = true) →
      ∀ f, findRateGo tH tV target l best d = some f → matchesTiming tH tV f = true := by
  intro l
  induction l with
  | nil =>
    intro best d hbest f hf
    exact hbest f hf
  | cons g rest ih =>
    intro best d hbest f hf
    by_cases h : (g.timingH == tH && g.timingV == tV) = true
    · by_cases h0 : target = 0
      · simp [findRateGo, h, h0] at hf
        subst hf
        simpa [matchesTiming] using h
      · by_cases hd : rateDiff target (g.fpsX100 / 100) = 0
        · simp [findRateGo, h, h0, hd] at hf
          subst hf
          simpa [matchesTiming] using h
        · by_cases hlt : rateDiff target (g.fpsX100 / 100) < d
          · simp [findRateGo, h, h0, hd, hlt] at hf
            refine ih (some g) _ ?_ f hf
            intro b hb
            cases hb
            simpa [matchesTiming] using h
          · simp [findRateGo, h, h0, hd, hlt] at hf
            exact ih best d hbest f hf
    · simp [findRateGo, h] at hf
      exact ih best d hbest f hf

theorem findRateGo_min (tH tV target : Nat) (ht : target ≠ 0) :
    ∀ (l : List ScFormat) (best : Option ScFormat) (bestDiff : Nat),
      (∀ b, best = some b → rateDiff target (b.fpsX100 / 100) = bestDiff) →
      (best = none → ∀ g ∈ l, matchesTiming tH tV g = true →
        rateDiff target (g.fpsX100 / 100) < bestDiff) →
      ∀ f, findRateGo tH tV target l best bestDiff = some f →
        (∀ g ∈ l, matchesTiming tH tV g = true →
          rateDiff target (f.fpsX100 / 100) ≤ rateDiff target (g.fpsX100 / 100)) ∧
        (∀ b, best = some b → rateDiff target (f.fpsX100 / 100) ≤ bestDiff) := by
  intro l
  induction l with
  | nil =>
    intro best bestDiff hbest hnone f hf
    have hbf : best = some f := hf
    refine ⟨by simp, ?_⟩
    intro b hb
    exact le_of_eq (hbest f hbf)
  | cons g rest ih =>
    intro best bestDiff hbest hnone f hf
    by_cases h : (g.timingH == tH && g.timingV == tV) = true
    · by_cases hd : rateDiff target (g.fpsX100 / 100) = 0
      · simp [findRateGo, h, ht, hd] at hf
        subst hf
        constructor
        · intro g2 _ _
          simp [hd]
        · intro b hb
          simp [hd]
      · by_cases hlt : rateDiff target (g.fpsX100 / 100) < bestDiff
        · simp [findRateGo, h, ht, hd, hlt] at hf
          have ihr := ih (some g) (rateDiff target (g.fpsX100 / 100))
            (by intro b hb; cases hb; rfl) (by intro hx; cases hx) f hf
          constructor
          · intro g2 hg2 hm2
            rcases List.mem_cons.mp hg2 with rfl | hg2r
            · exact ihr.2 g2 rfl
            · exact ihr.1 g2 hg2r hm2
          · intro b hb
            have h1 := ihr.2 g rfl
            have := hbest b hb
            omega
        · -- the head entry is not better; a best entry must already exist,
          -- since with best = none every matching entry beats the initial diff
          cases best with
          | none =>
            exact absurd (hnone rfl g (List.mem_cons_self g rest)
              (by simpa [matchesTiming] using h)) hlt
          | some b0 =>
            simp [findRateGo, h, ht, hd, hlt] at hf
            have ihr := ih (some b0) bestDiff hbest (by intro hx; cases hx) f hf
            constructor
            · intro g2 hg2 hm2
              rcases List.mem_cons.mp hg2 with rfl | hg2r
              · have h1 := ihr.2 b0 rfl
                omega
              · exact ihr.1 g2 hg2r hm2
            · exact ihr.2
    · simp [findRateGo, h] at hf
      have ihr := ih best bestDiff hbest
        (by intro hx g2 hg2 hm2; exact hnone hx g2 (List.mem_cons_of_mem g hg2) hm2) f hf
      constructor
      · intro g2 hg2 hm2
        rcases List.mem_cons.mp hg2 with rfl | hg2r
        · exact absurd hm2 (by simpa [matchesTiming] using h)
        · exact ihr.1 g2 hg2r hm2
      · exact ihr.2


theorem findRateGo_isSome_of_best (tH tV target : Nat) :
    ∀ (l : List ScFormat) (b : ScFormat) (d : Nat),
      (findRateGo tH tV target l (some b) d).isSome = true := by
  intro l
  induction l with
  | nil => intro b d; rfl
  | cons g rest ih =>
    intro b d
    by_cases h : (g.timingH == tH && g.timingV == tV) = true
    · by_cases h0 : target = 0
      · simp [findRateGo, h, h0]
      · by_cases hd : rateDiff target (g.fpsX100 / 100) = 0
        · simp [findRateGo, h, h0, hd]
        · by_cases hlt : rateDiff target (g.fpsX100 / 100) < d
          · simpa [findRateGo, h, h0, hd, hlt] using ih g _
          · simpa [findRateGo, h, h0, hd, hlt] using ih b d
    · simpa [findRateGo, h] using ih b d

theorem findRateGo_isSome (tH tV target : Nat) :
    ∀ (l : List ScFormat) (d : Nat),
      (∀ g ∈ l, matchesTiming tH tV g = true → rateDiff target (g.fpsX100 / 100) < d) →
      (∃ g ∈ l, matchesTiming tH tV g = true) →
      (findRateGo tH tV target l none d).isSome = true := by
  intro l
  induction l with
  | nil =>
    intro d hbound hex
    rcases hex with ⟨g, hg, _⟩
    cases hg
  | cons g rest ih =>
    intro d hbound hex
    by_cases h : (g.timingH == tH && g.timingV == tV) = true
    · by_cases h0 : target = 0
      · simp [findRateGo, h, h0]
      · by_cases hd : rateDiff target (g.fpsX100 / 100) = 0
        · simp [findRateGo, h, h0, hd]
        · have hlt : rateDiff target (g.fpsX100 / 100) < d :=
            hbound g (List.mem_cons_self g rest) (by simpa [matchesTiming] using h)
          simpa [findRateGo, h, h0, hd, hlt] using
            findRateGo_isSome_of_best tH tV target rest g _
    · rcases hex with ⟨g2, hg2, hm2⟩
      rcases List.mem_cons.mp hg2 with rfl | hg2r
      · exact absurd hm2 (by simpa [matchesTiming] using h)
      · exact by
          simpa [findRateGo, h] using
            ih d (fun g3 hg3 hm3 => hbound g3 (List.mem_cons_of_mem g hg3) hm3) ⟨g2, hg2r, hm2⟩

theorem findRateGo_exact_first (tH tV target : Nat) (ht : target ≠ 0) :
    ∀ (l : List ScFormat) (best : Option ScFormat) (d : Nat) (e : ScFormat),
      l.find? (fun g => matchesTiming tH tV g && (rateDiff target (g.fpsX100 / 100) == 0)) =
        some e →
      findRateGo tH tV target l best d = some e := by
  intro l
  induction l with
  | nil =>
    intro best d e he
    simp at he
  | cons g rest ih =>
    intro best d e he
    by_cases h : (g.timingH == tH && g.timingV == tV) = true
    · by_cases hd : rateDiff target (g.fpsX100 / 100) = 0
      · have : e = g := by
          simp [List.find?_cons, matchesTiming, h, hd] at he
          exact he.symm
        subst this
        simp [findRateGo, h, ht, hd]
      · have he2 : rest.find?
            (fun g => matchesTiming tH tV g && (rateDiff target (g.fpsX100 / 100) == 0)) =
            some e := by
          have hp : (matchesTiming tH tV g && (rateDiff target (g.fpsX100 / 100) == 0)) = false := by
            simp [hd]
          simpa [List.find?_cons, hp] using he
        by_cases hlt : rateDiff target (g.fpsX100 / 100) < d
        · simpa [findRateGo, h, ht, hd, hlt] using ih (some g) _ e he2
        · simpa [findRateGo, h, ht, hd, hlt] using ih best d e he2
    · have hp : (matchesTiming tH tV g && (rateDiff target (g.fpsX100 / 100) == 0)) = false := by
        have hb : (g.timingH == tH && g.timingV == tV) = false := by
          cases hx : (g.timingH == tH && g.timingV == tV) with
          | false => rfl
          | true => exact absurd hx h
        simp [matchesTiming, hb]
      have he2 : rest.find?
          (fun g => matchesTiming tH tV g && (rateDiff target (g.fpsX100 / 100) == 0)) =
          some e := by simpa [List.find?_cons, hp] using he
      simpa [findRateGo, h] using ih best d e he2

theorem formats_fps_bounds :
    ∀ g ∈ formats, 0 < g.fpsX100 / 100 ∧ g.fpsX100 / 100 < 4294967295 := by decide

/-- Claim C3: for every query, sc0710_format_find_by_timing_and_rate
returns, among all table entries whose timing tuple equals the query,
one whose rounded frame rate (fpsX100 / 100) minimizes the absolute
difference from target_fps (and it returns an entry whenever any entry
matches); target_fps = 0 returns the first matching entry in table order
(the same entry sc0710_format_find_by_timing returns); an exact rate
match returns the first exactly-matching entry immediately; concretely,
the query (2200, 1125, 50) returns the 1920x1080p60 entry.  The bound on
target reflects its u32 type in the source. -/
theorem find_by_timing_and_rate_nearest (tH tV target : Nat) (h32 : target < 4294967296) :
    (target = 0 →
      sc0710_format_find_by_timing_and_rate tH tV 0 = sc0710_format_find_by_timing tH tV) ∧
    (target ≠ 0 → ∀ f, sc0710_format_find_by_timing_and_rate tH tV target = some f →
      matchesTiming tH tV f = true ∧
      ∀ g ∈ formats, matchesTiming tH tV g = true →
        rateDiff target (f.fpsX100 / 100) ≤ rateDiff target (g.fpsX100 / 100)) ∧
    ((∃ g ∈ formats, matchesTiming tH tV g = true) →
      (sc0710_format_find_by_timing_and_rate tH tV target).isSome = true) ∧
    (∀ e, formats.find?
        (fun g => matchesTiming tH tV g && (rateDiff target (g.fpsX100 / 100) == 0)) =
        some e →
      sc0710_format_find_by_timing_and_rate tH tV target = some e) ∧
    sc0710_format_find_by_timing_and_rate 2200 1125 50 = some fmt1920x1080p60 := by
  have hbound : ∀ g ∈ formats, matchesTiming tH tV g = true →
      rateDiff target (g.fpsX100 / 100) < 4294967295 := by
    intro g hg _
    have hb := formats_fps_bounds g hg
    unfold rateDiff
    split <;> omega
  refine ⟨?_, ?_, ?_, ?_, by decide⟩
  · intro h0
    subst h0
    exact findRateGo_target_zero tH tV formats 4294967295
  · intro ht f hf
    refine ⟨findRateGo_matches tH tV target formats none 4294967295
      (by intro b hb; cases hb) f hf, ?_⟩
    exact (findRateGo_min tH tV target ht formats none 4294967295
      (by intro b hb; cases hb) (fun _ => hbound) f hf).1
  · intro hex
    by_cases ht : target = 0
    · subst ht
      unfold sc0710_format_find_by_timing_and_rate
      rw [findRateGo_target_zero tH tV formats 4294967295]
      rcases hex with ⟨g, hg, hm⟩
      exact List.find?_isSome.mpr ⟨g, hg, hm⟩
    · exact findRateGo_isSome tH tV target formats 4294967295 hbound hex
  · intro e he
    by_cases ht : target = 0
    · exfalso
      have hmem := List.mem_of_find?_eq_some he
      have hp := List.find?_some he
      have hb := formats_fps_bounds e hmem
      subst ht
      have hz : rateDiff 0 (e.fpsX100 / 100) = 0 := by
        have h2 := (Bool.and_eq_true _ _).mp hp
        simpa using h2.2
      unfold rateDiff at hz
      split at hz <;> omega
    · exact findRateGo_exact_first tH tV target ht formats none 4294967295 e he

/-- Witness for find_by_timing_and_rate_nearest at the concrete query of
the claim. -/
theorem find_by_timing_and_rate_nearest_witness :
    sc0710_format_find_by_timing_and_rate 2200 1125 50 = some fmt1920x1080p60 :=
  (find_by_timing_and_rate_nearest 2200 1125 50 (by decide)).2.2.2.2

/-- Claim C4 counterexample: the 4096x2160p30 entry shares timing tuple
(4400, 2250) and rounded rate 30 with the earlier 3840x2160p30 entry, so
looking it up by its own timing and rate returns the earlier entry, not
the entry itself. -/
theorem catalog_exact_lookup_counterexample :
    fmt4096x2160p30 ∈ formats ∧
    fmt4096x2160p30.fpsX100 / 100 = 30 ∧
    sc0710_format_find_by_timing_and_rate fmt4096x2160p30.timingH fmt4096x2160p30.timingV 30 =
      some fmt3840x2160p30 ∧
    fmt3840x2160p30 ≠ fmt4096x2160p30 := by decide

/-- Claim C4 (amended): for every catalog entry e,
sc0710_format_find_by_timing on the timing tuple of e returns some entry
with that same timing tuple, and sc0710_format_find_by_timing_and_rate
with the rounded rate of e returns the first table entry sharing both the
timing tuple and the rounded rate of e; that entry is e itself except
when an earlier row duplicates both (the two DCI 4K rows at 30 and 60 Hz
behind the 3840x2160 rows). -/
theorem catalog_self_lookup :
    ∀ e ∈ formats,
      (sc0710_format_find_by_timing e.timingH e.timingV).any
          (fun f => f.timingH == e.timingH && f.timingV == e.timingV) = true ∧
      sc0710_format_find_by_timing_and_rate e.timingH e.timingV (e.fpsX100 / 100) =
        formats.find? (fun g => g.timingH == e.timingH && g.timingV == e.timingV &&
          (g.fpsX100 / 100 == e.fpsX100 / 100)) := by decide

/-- Witness for catalog_self_lookup at the first table entry. -/
theorem catalog_self_lookup_witness :
    (sc0710_format_find_by_timing fmt640x480p60.timingH fmt640x480p60.timingV).any
        (fun f => f.timingH == fmt640x480p60.timingH && f.timingV == fmt640x480p60.timingV) =
        true ∧
    sc0710_format_find_by_timing_and_rate fmt640x480p60.timingH fmt640x480p60.timingV
        (fmt640x480p60.fpsX100 / 100) =
      formats.find? (fun g => g.timingH == fmt640x480p60.timingH &&
        g.timingV == fmt640x480p60.timingV &&
        (g.fpsX100 / 100 == fmt640x480p60.fpsX100 / 100)) :=
  catalog_self_lookup fmt640x480p60 (by decide)

/-- Claim C5: whenever either lookup returns a descriptor, its timing
tuple equals the queried timing tuple. -/
theorem format_match_timing_tuple (tH tV target : Nat) (f : ScFormat) :
    (sc0710_format_find_by_timing tH tV = some f → f.timingH = tH ∧ f.timingV = tV) ∧
    (sc0710_format_find_by_timing_and_rate tH tV target = some f →
      f.timingH = tH ∧ f.timingV = tV) := by
  constructor
  · intro hf
    have hp := List.find?_some hf
    have hp2 := (Bool.and_eq_true _ _).mp hp
    exact ⟨by simpa using hp2.1, by simpa using hp2.2⟩
  · intro hf
    have hm := findRateGo_matches tH tV target formats none 4294967295
      (by intro b hb; cases hb) f hf
    have hp2 := (Bool.and_eq_true _ _).mp hm
    exact ⟨by simpa using hp2.1, by simpa using hp2.2⟩

/-- Witness for format_match_timing_tuple at the first (2200, 1125)
entry. -/
theorem format_match_timing_tuple_witness :
    fmt1920x1080p30.timingH = 2200 ∧ fmt1920x1080p30.timingV = 1125 :=
  (format_match_timing_tuple 2200 1125 0 fmt1920x1080p30).1 (by decide)

theorem read_hdmi_status_locked_fst (dev : SigState) (rbuf : Nat → Nat) (hl : rbuf 8 ≠ 0) :
    (sc0710_i2c_read_hdmi_status dev rbuf).1 =
      { locked := true, cable_connected := true, unlocked_no_timing_count := 0,
        width := rbuf 11 <<< 8 ||| rbuf 10,
        height := if rbuf 13 &&& 1 ≠ 0 then (rbuf 9 <<< 8 ||| rbuf 8) * 2
                  else rbuf 9 <<< 8 ||| rbuf 8,
        pixelLineH := rbuf 7 <<< 8 ||| rbuf 6,
        pixelLineV := rbuf 5 <<< 8 ||| rbuf 4,
        interlaced := rbuf 13 &&& 1,
        colorimetry :=
          match (rbuf 13 &&& 0x30) >>> 4 with
          | 1 => Colorimetry.BT_709
          | 2 => Colorimetry.BT_601
          | 3 => Colorimetry.BT_2020
          | _ => Colorimetry.BT_UNDEFINED,
        colorspace :=
          match rbuf 15 with
          | 0 => Colorspace.CS_YUV_YCRCB_422_420
          | 1 => Colorspace.CS_YUV_YCRCB_444
          | 2 => Colorspace.CS_RGB_444
          | _ => Colorspace.CS_UNDEFINED,
        eotf := Eotf.EOTF_SDR,
        last_hint_interval := rbuf 12, last_hint_flags := rbuf 13,
        fmt := if hdmiTimingChanged dev rbuf ∨ dev.locked = false then
            sc0710_format_find_by_timing_and_rate (rbuf 7 <<< 8 ||| rbuf 6)
              (rbuf 5 <<< 8 ||| rbuf 4) (hdmiFpsTarget (rbuf 12) (rbuf 13))
          else dev.fmt,
        last_fmt :=
          if (if hdmiTimingChanged dev rbuf ∨ dev.locked = false then
              sc0710_format_find_by_timing_and_rate (rbuf 7 <<< 8 ||| rbuf 6)
                (rbuf 5 <<< 8 ||| rbuf 4) (hdmiFpsTarget (rbuf 12) (rbuf 13))
            else dev.fmt).isSome then
            (if hdmiTimingChanged dev rbuf ∨ dev.locked = false then
              sc0710_format_find_by_timing_and_rate (rbuf 7 <<< 8 ||| rbuf 6)
                (rbuf 5 <<< 8 ||| rbuf 4) (hdmiFpsTarget (rbuf 12) (rbuf 13))
            else dev.fmt)
          else dev.last_fmt } := by
  unfold sc0710_i2c_read_hdmi_status
  rw [if_pos hl]
  dsimp only
  split <;> rfl

/-- Claim C2: with the poll counter starting at 0, two unlocked polls
with all-zero timing-hint bytes leave cable_connected true (the state is
never NoDevice below the threshold); the third consecutive such poll
flips cable_connected to false and clears the resolved format and the
geometry fields; and any unlocked poll with a nonzero hint byte resets
the counter to 0 and keeps cable_connected true. -/
theorem hdmi_unlock_hysteresis (dev : SigState) (r1 r2 r3 : Nat → Nat)
    (h0 : dev.unlocked_no_timing_count = 0)
    (h1 : r1 8 = 0 ∧ r1 4 = 0 ∧ r1 5 = 0 ∧ r1 6 = 0 ∧ r1 7 = 0)
    (h2 : r2 8 = 0 ∧ r2 4 = 0 ∧ r2 5 = 0 ∧ r2 6 = 0 ∧ r2 7 = 0)
    (h3 : r3 8 = 0 ∧ r3 4 = 0 ∧ r3 5 = 0 ∧ r3 6 = 0 ∧ r3 7 = 0) :
    (let d1 := (sc0710_i2c_read_hdmi_status dev r1).1
     let d2 := (sc0710_i2c_read_hdmi_status d1 r2).1
     let d3 := (sc0710_i2c_read_hdmi_status d2 r3).1
     d1.cable_connected = true ∧ d1.unlocked_no_timing_count = 1 ∧
     d2.cable_connected = true ∧ d2.unlocked_no_timing_count = 2 ∧
     d3.cable_connected = false ∧ d3.unlocked_no_timing_count = 3 ∧
     d3.fmt = none ∧ d3.locked = false ∧
     d3.width = 0 ∧ d3.height = 0 ∧ d3.pixelLineH = 0 ∧ d3.pixelLineV = 0) ∧
    (∀ (d : SigState) (r : Nat → Nat), r 8 = 0 → r 4 ||| r 5 ||| r 6 ||| r 7 ≠ 0 →
      (sc0710_i2c_read_hdmi_status d r).1.unlocked_no_timing_count = 0 ∧
      (sc0710_i2c_read_hdmi_status d r).1.cable_connected = true) := by
  obtain ⟨h18, h14, h15, h16, h17⟩ := h1
  obtain ⟨h28, h24, h25, h26, h27⟩ := h2
  obtain ⟨h38, h34, h35, h36, h37⟩ := h3
  constructor
  · simp [sc0710_i2c_read_hdmi_status, h18, h14, h15, h16, h17,
      h28, h24, h25, h26, h27, h38, h34, h35, h36, h37, h0]
  · intro d r hr8 hr
    simp [sc0710_i2c_read_hdmi_status, hr8, hr]

/-- Witness for hdmi_unlock_hysteresis: three all-zero polls from the
quiescent state. -/
theorem hdmi_unlock_hysteresis_witness :
    (let d1 := (sc0710_i2c_read_hdmi_status initSigState rbufZero).1
     let d2 := (sc0710_i2c_read_hdmi_status d1 rbufZero).1
     let d3 := (sc0710_i2c_read_hdmi_status d2 rbufZero).1
     d1.cable_connected = true ∧ d1.unlocked_no_timing_count = 1 ∧
     d2.cable_connected = true ∧ d2.unlocked_no_timing_count = 2 ∧
     d3.cable_connected = false ∧ d3.unlocked_no_timing_count = 3 ∧
     d3.fmt = none ∧ d3.locked = false ∧
     d3.width = 0 ∧ d3.height = 0 ∧ d3.pixelLineH = 0 ∧ d3.pixelLineV = 0) :=
  (hdmi_unlock_hysteresis initSigState rbufZero rbufZero rbufZero rfl
    ⟨rfl, rfl, rfl, rfl, rfl⟩ ⟨rfl, rfl, rfl, rfl, rfl⟩ ⟨rfl, rfl, rfl, rfl, rfl⟩).1

/-- Claim C6: on a locked poll that is a first lock or a timing change,
the target frame rate is derived from the two hint bytes by the decision
table (0x78 with flags 0x10 gives 120, 0x78 with flags 0x50 gives 30,
0x3c gives 60, anything else gives 0 meaning no hint), and the resolved
format is exactly the rate-aware lookup at the new totals with that
target; when that lookup finds nothing the resolved format is none. -/
theorem hdmi_fps_hint_resolution (dev : SigState) (rbuf : Nat → Nat)
    (hl : rbuf 8 ≠ 0)
    (hre : hdmiTimingChanged dev rbuf ∨ dev.locked = false) :
    ((sc0710_i2c_read_hdmi_status dev rbuf).1.fmt =
      sc0710_format_find_by_timing_and_rate
        ((sc0710_i2c_read_hdmi_status dev rbuf).1.pixelLineH)
        ((sc0710_i2c_read_hdmi_status dev rbuf).1.pixelLineV)
        (hdmiFpsTarget (rbuf 12) (rbuf 13))) ∧
    hdmiFpsTarget 0x78 0x10 = 120 ∧
    hdmiFpsTarget 0x78 0x50 = 30 ∧
    (∀ flags, hdmiFpsTarget 0x3C flags = 60) ∧
    (∀ hi flags, hi ≠ 0x78 → hi ≠ 0x3C → hdmiFpsTarget hi flags = 0) := by
  refine ⟨?_, rfl, rfl, fun flags => rfl, ?_⟩
  · rw [read_hdmi_status_locked_fst dev rbuf hl]
    simp only [if_pos hre]
  · intro hi flags hi78 hi3c
    simp [hdmiFpsTarget, hi78, hi3c]

/-- Witness for hdmi_fps_hint_resolution: first lock at 1080p60. -/
theorem hdmi_fps_hint_resolution_witness :
    (sc0710_i2c_read_hdmi_status initSigState rbufLock1080p60).1.fmt =
      sc0710_format_find_by_timing_and_rate
        ((sc0710_i2c_read_hdmi_status initSigState rbufLock1080p60).1.pixelLineH)
        ((sc0710_i2c_read_hdmi_status initSigState rbufLock1080p60).1.pixelLineV)
        (hdmiFpsTarget (rbufLock1080p60 12) (rbufLock1080p60 13)) :=
  (hdmi_fps_hint_resolution initSigState rbufLock1080p60 (by decide) (Or.inr rfl)).1

/-- Claim C8: the last-known-good pointer is never changed by an
unlocked poll (any signal-loss path); the no-signal branch (hints
present) and the no-device branch (third consecutive all-zero poll)
both clear the resolved format and the geometry fields; and on a locked
poll the last-known-good pointer becomes the resolved format exactly
when that format is non-null, otherwise it keeps its old value. -/
theorem last_fmt_sticky (dev : SigState) (rbuf : Nat → Nat) :
    (rbuf 8 = 0 → (sc0710_i2c_read_hdmi_status dev rbuf).1.last_fmt = dev.last_fmt) ∧
    (rbuf 8 = 0 → rbuf 4 ||| rbuf 5 ||| rbuf 6 ||| rbuf 7 ≠ 0 →
      (sc0710_i2c_read_hdmi_status dev rbuf).1.fmt = none ∧
      (sc0710_i2c_read_hdmi_status dev rbuf).1.width = 0 ∧
      (sc0710_i2c_read_hdmi_status dev rbuf).1.height = 0 ∧
      (sc0710_i2c_read_hdmi_status dev rbuf).1.pixelLineH = 0 ∧
      (sc0710_i2c_read_hdmi_status dev rbuf).1.pixelLineV = 0) ∧
    (rbuf 8 = 0 → rbuf 4 ||| rbuf 5 ||| rbuf 6 ||| rbuf 7 = 0 →
      3 ≤ dev.unlocked_no_timing_count + 1 →
      (sc0710_i2c_read_hdmi_status dev rbuf).1.fmt = none ∧
      (sc0710_i2c_read_hdmi_status dev rbuf).1.width = 0 ∧
      (sc0710_i2c_read_hdmi_status dev rbuf).1.height = 0 ∧
      (sc0710_i2c_read_hdmi_status dev rbuf).1.pixelLineH = 0 ∧
      (sc0710_i2c_read_hdmi_status dev rbuf).1.pixelLineV = 0) ∧
    (rbuf 8 ≠ 0 →
      (sc0710_i2c_read_hdmi_status dev rbuf).1.last_fmt =
        if ((sc0710_i2c_read_hdmi_status dev rbuf).1.fmt).isSome
        then (sc0710_i2c_read_hdmi_status dev rbuf).1.fmt
        else dev.last_fmt) := by
  refine ⟨?_, ?_, ?_, ?_⟩
  · intro h8
    by_cases hp : rbuf 4 ||| rbuf 5 ||| rbuf 6 ||| rbuf 7 ≠ 0
    · simp [sc0710_i2c_read_hdmi_status, h8, hp]
    · by_cases hc : 3 ≤ dev.unlocked_no_timing_count + 1
      · simp [sc0710_i2c_read_hdmi_status, h8, hp, hc]
      · simp [sc0710_i2c_read_hdmi_status, h8, hp, hc]
  · intro h8 hp
    simp [sc0710_i2c_read_hdmi_status, h8, hp]
  · intro h8 hp hc
    simp [sc0710_i2c_read_hdmi_status, h8, hp, hc]
  · intro h8
    rw [read_hdmi_status_locked_fst dev rbuf h8]

/-- Witness for last_fmt_sticky: an unlocked all-zero poll on a device
that was locked at 1080p60 leaves the last-known-good pointer intact. -/
theorem last_fmt_sticky_witness :
    (sc0710_i2c_read_hdmi_status devLocked1080p60 rbufZero).1.last_fmt =
      devLocked1080p60.last_fmt :=
  (last_fmt_sticky devLocked1080p60 rbufZero).1 rfl

/-- Claim C7: every placeholder delivery of the timer tick fills the
frame and sets the buffer payload from the default no-signal geometry
(1920 x 1080, 1920 * 2 * 1080 bytes), regardless of the device state and
in particular regardless of the last-known-good format, which may be a
larger 4K entry after a signal loss. -/
theorem vid_timeout_default_geometry (dev : SigState) (d : PlaceholderDelivery)
    (h : sc0710_vid_timeout dev = some d) :
    d.fillWidth = 1920 ∧ d.fillHeight = 1080 ∧ d.payload = 1920 * 2 * 1080 ∧
    d.fillWidth = default_no_signal_format.width ∧
    d.fillHeight = default_no_signal_format.height ∧
    d.payload = default_no_signal_format.framesize := by
  unfold sc0710_vid_timeout at h
  split at h
  · cases h
  · cases h
    exact ⟨rfl, rfl, rfl, rfl, rfl, rfl⟩

/-- Witness for vid_timeout_default_geometry: a tick after signal loss
with a 4K last-known-good format. -/
theorem vid_timeout_default_geometry_witness :
    placeholderDeliveryExample.fillWidth = 1920 ∧
    placeholderDeliveryExample.fillHeight = 1080 ∧
    placeholderDeliveryExample.payload = 1920 * 2 * 1080 ∧
    placeholderDeliveryExample.fillWidth = default_no_signal_format.width ∧
    placeholderDeliveryExample.fillHeight = default_no_signal_format.height ∧
    placeholderDeliveryExample.payload = default_no_signal_format.framesize :=
  vid_timeout_default_geometry devSignalLoss4K placeholderDeliveryExample (by decide)

/-- Claim C9: sc0710_reset_dma_frame_sync performs no action at all (no
channel stop, no metadata clear, no register write, no resize, no start)
when no format is resolved, and likewise when no enabled video channel
has a positive streaming-client reference count. -/
theorem reset_dma_frame_sync_noop (dev : SigState) (channels : List DmaChannel) :
    (dev.fmt = none → sc0710_reset_dma_frame_sync dev channels = []) ∧
    ((∀ ch ∈ channels, ch.enabled = true → ch.mediatype = ChType.video →
        ch.streaming_refcount ≤ 0) →
      sc0710_reset_dma_frame_sync dev channels = []) := by
  constructor
  · intro h
    simp [sc0710_reset_dma_frame_sync, h]
  · intro h
    unfold sc0710_reset_dma_frame_sync
    cases hf : dev.fmt with
    | none => rfl
    | some fmt =>
      have hany : (channels.any fun ch =>
          ch.enabled && ch.mediatype == ChType.video &&
            decide (0 < ch.streaming_refcount)) = false := by
        rw [List.any_eq_false]
        intro ch hch hcontra
        rw [Bool.and_eq_true, Bool.and_eq_true] at hcontra
        have he : ch.enabled = true := hcontra.1.1
        have hv : ch.mediatype = ChType.video := by
          have := hcontra.1.2
          simpa using this
        have hr : 0 < ch.streaming_refcount := of_decide_eq_true hcontra.2
        have := h ch hch he hv
        omega
      simp [hany]

/-- Witness for reset_dma_frame_sync_noop: no resolved format and an
empty channel table. -/
theorem reset_dma_frame_sync_noop_witness :
    sc0710_reset_dma_frame_sync initSigState [] = [] :=
  (reset_dma_frame_sync_noop initSigState []).1 rfl

theorem ackWaitGo_ne_acked (poll : Nat → Nat) (expired : Nat → Bool) (want : Nat)
    (hp : ∀ i, poll i ≠ want) :
    ∀ (cnt i : Nat), ackWaitGo poll expired want cnt i ≠ AckResult.acked := by
  intro cnt
  induction cnt with
  | zero =>
    intro i h
    cases h
  | succ n ih =>
    intro i
    unfold ackWaitGo
    by_cases he : expired i = true
    · simp [he]
    · simp only [Bool.not_eq_true] at he
      simp [he, hp i]
      exact ih (i + 1)

theorem readPhaseGo_no_expired (bus : I2CBus) (hne : ∀ j, bus.readExpired j = false) :
    ∀ (r j : Nat) (acc : List Nat),
      ∃ l : List Nat, l.length = r ∧
        readPhaseGo bus r j acc =
          { ret := if bus.finalStatus = 0xc8 ∨ bus.finalStatus = 0xcc then 0 else -1,
            bytes := acc ++ l } := by
  intro r
  induction r with
  | zero =>
    intro j acc
    refine ⟨[], rfl, ?_⟩
    unfold readPhaseGo
    by_cases hs : bus.finalStatus = 0xc8 ∨ bus.finalStatus = 0xcc
    · simp [hs]
    · simp [hs]
  | succ n ih =>
    intro j acc
    obtain ⟨l, hl, heq⟩ := ih (j + 1) (acc ++ [busread bus j])
    refine ⟨busread bus j :: l, by simp [hl], ?_⟩
    unfold readPhaseGo
    rw [hne j]
    simpa using heq

/-- Claim C1 (amended): every write-read transaction terminates with one
of four outcomes, but the two acknowledge phases do not produce typed
failures: an address-acknowledge timeout (deadline or 16 exhausted
retries) returns 0, the success code, with no bytes read; a sub-address
acknowledge deadline also returns 0 with no bytes, while sub-address
retry exhaustion is tolerated and the transaction proceeds; only the
read phase returns the typed -ETIMEDOUT, and a bad completion status
returns -1 while a good one returns 0 with exactly rlen bytes. -/
theorem writeread_phase_results (bus : I2CBus) (rlen : Nat) :
    ((∀ i, bus.ackPoll1 i ≠ 0x44) →
      sc0710_i2c_writeread bus rlen = { ret := 0, bytes := [] }) ∧
    (ackWaitGo bus.ackPoll1 bus.expired1 0x44 16 0 = AckResult.acked →
      ackWaitGo bus.ackPoll2 bus.expired2 0xc4 16 0 = AckResult.expiredEarly →
      sc0710_i2c_writeread bus rlen = { ret := 0, bytes := [] }) ∧
    (ackWaitGo bus.ackPoll1 bus.expired1 0x44 16 0 = AckResult.acked →
      ackWaitGo bus.ackPoll2 bus.expired2 0xc4 16 0 ≠ AckResult.expiredEarly →
      0 < rlen → bus.readExpired 0 = true →
      sc0710_i2c_writeread bus rlen = { ret := -ETIMEDOUT, bytes := [] }) ∧
    (ackWaitGo bus.ackPoll1 bus.expired1 0x44 16 0 = AckResult.acked →
      ackWaitGo bus.ackPoll2 bus.expired2 0xc4 16 0 ≠ AckResult.expiredEarly →
      (∀ j, bus.readExpired j = false) →
      (sc0710_i2c_writeread bus rlen).bytes.length = rlen ∧
      (sc0710_i2c_writeread bus rlen).ret =
        (if bus.finalStatus = 0xc8 ∨ bus.finalStatus = 0xcc then 0 else -1)) := by
  refine ⟨?_, ?_, ?_, ?_⟩
  · intro hp
    have hne := ackWaitGo_ne_acked bus.ackPoll1 bus.expired1 0x44 hp 16 0
    unfold sc0710_i2c_writeread
    cases hw : ackWaitGo bus.ackPoll1 bus.expired1 0x44 16 0 with
    | acked => exact absurd hw hne
    | expiredEarly => rfl
    | exhausted => rfl
  · intro hw1 hw2
    unfold sc0710_i2c_writeread
    rw [hw1, hw2]
  · intro hw1 hw2 hr hexp
    unfold sc0710_i2c_writeread
    rw [hw1]
    cases rlen with
    | zero => cases hr
    | succ n =>
      cases hw : ackWaitGo bus.ackPoll2 bus.expired2 0xc4 16 0 with
      | expiredEarly => exact absurd hw hw2
      | acked =>
        unfold readPhaseGo
        simp [hexp]
      | exhausted =>
        unfold readPhaseGo
        simp [hexp]
  · intro hw1 hw2 hne
    unfold sc0710_i2c_writeread
    rw [hw1]
    obtain ⟨l, hl, heq⟩ := readPhaseGo_no_expired bus hne rlen 0 []
    cases hw : ackWaitGo bus.ackPoll2 bus.expired2 0xc4 16 0 with
    | expiredEarly => exact absurd hw hw2
    | acked =>
      rw [heq]
      exact ⟨by simpa using hl, rfl⟩
    | exhausted =>
      rw [heq]
      exact ⟨by simpa using hl, rfl⟩

/-- Claim C1 counterexample: against a peripheral that never
acknowledges, the transaction returns 0 (the success code, not any typed
failure) with an empty byte buffer instead of the 20 requested bytes. -/
theorem writeread_never_ack_counterexample :
    sc0710_i2c_writeread busNeverAck 20 = { ret := 0, bytes := [] } ∧
    ¬((sc0710_i2c_writeread busNeverAck 20).ret < 0) ∧
    (sc0710_i2c_writeread busNeverAck 20).bytes.length ≠ 20 := by decide

/-- Witness for writeread_phase_results: the never-acknowledging
peripheral takes the address-timeout path. -/
theorem writeread_phase_results_witness :
    sc0710_i2c_writeread busNeverAck 20 = { ret := 0, bytes := [] } :=
  (writeread_phase_results busNeverAck 20).1 (fun i => by simp [busNeverAck])

theorem writeGo_all_ack (bus : McuBus) (hall : ∀ k, didack bus k = true) :
    ∀ (l : List Nat) (k : Nat) (acc : List TxByte),
      (writeGo bus l k acc).1 = 0 ∧
      (writeGo bus l k acc).2.map TxByte.byte = acc.map TxByte.byte ++ l := by
  intro l
  induction l with
  | nil =>
    intro k acc
    exact ⟨rfl, by simp [writeGo]⟩
  | cons b bs ih =>
    intro k acc
    unfold writeGo
    rw [hall k]
    rw [if_pos rfl]
    have hih := ih (k + 1) (acc ++ [{ byte := b, stop := bs.isEmpty }])
    refine ⟨hih.1, ?_⟩
    rw [hih.2]
    simp

/-- Claim C10 (code bug on the payload part): payloads longer than 15
bytes are rejected with -EINVAL before the signal mutex is taken and
before any bus activity; but for an accepted payload the transmit loop
of sc0710_i2c_write starts at index 1 of wbuf, so the sub-address byte
placed at wbuf[0] is never pushed to the transmit FIFO: exactly the len
payload bytes go out, without the sub-address byte in front.  The claim
(and the contract of a sub-addressed write) expects subaddr followed by
the payload. -/
theorem write_mcu_length_and_payload (bus : McuBus) (subaddr : Nat) (data : List Nat) :
    (data.length > 15 →
      sc0710_i2c_write_mcu bus subaddr data =
        { ret := -EINVAL, lockTaken := false, sent := [] }) ∧
    ((∀ k, didack bus k = true) → data.length ≤ 15 →
      (sc0710_i2c_write_mcu bus subaddr data).ret = 0 ∧
      (sc0710_i2c_write_mcu bus subaddr data).lockTaken = true ∧
      (sc0710_i2c_write_mcu bus subaddr data).sent.map TxByte.byte = data) ∧
    (sc0710_i2c_write_mcu mcuBusAllAck 0x12 [0xAB]).sent.map TxByte.byte = [0xAB] ∧
    (sc0710_i2c_write_mcu mcuBusAllAck 0x12 [0xAB]).sent.map TxByte.byte ≠ [0x12, 0xAB] := by
  refine ⟨?_, ?_, by decide, by decide⟩
  · intro hlen
    unfold sc0710_i2c_write_mcu
    rw [if_pos hlen]
  · intro hall hlen
    have hnot : ¬(data.length > 15) := by omega
    have hw := writeGo_all_ack bus hall data 1 []
    unfold sc0710_i2c_write_mcu
    rw [if_neg hnot]
    unfold sc0710_i2c_write
    rw [hall 0]
    refine ⟨by simpa using hw.1, rfl, by simpa using hw.2⟩

/-- Witness for write_mcu_length_and_payload: a 16-byte payload is
rejected with -EINVAL, untouched lock, nothing sent. -/
theorem write_mcu_length_and_payload_witness :
    sc0710_i2c_write_mcu mcuBusAllAck 0x12 (List.replicate 16 0) =
      { ret := -EINVAL, lockTaken := false, sent := [] } :=
  (write_mcu_length_and_payload mcuBusAllAck 0x12 (List.replicate 16 0)).1 (by decide)
